import Mathlib

/-!
Verification of the acahelper content-transformation service.

The definitions below are a shallow embedding of the TypeScript source:
text is `List Char`, JSON numbers are `Int` (or `ℚ` for the generation
parameters), the database is an explicit list of rows, and each Express
route handler is a pure function from its inputs and the database state
to a response (and, for writes, a new state).  Request bodies are
records of `Option` fields, so that a missing JSON field is `none` and
the zod validators are `Option`-returning parsers.
-/

namespace Aca

/-! ## Word counting (client `countWords` helpers and `WordCounter`) -/

/-- JS whitespace class: the character set matched by the regex `\s` and
removed by `String.prototype.trim` (space, tab, line and paragraph
separators, NBSP, BOM, and the Unicode space block U+2000..U+200A). -/
def isJsWs (c : Char) : Bool :=
  c = ' ' || c = '\t' || c = '\n' || c = '\r' ||
  c.toNat = 11 || c.toNat = 12 || c.toNat = 0xa0 || c.toNat = 0x1680 ||
  (0x2000 ≤ c.toNat && c.toNat ≤ 0x200a) ||
  c.toNat = 0x2028 || c.toNat = 0x2029 || c.toNat = 0x202f ||
  c.toNat = 0x205f || c.toNat = 0x3000 || c.toNat = 0xfeff

/-- Does the character list start with a whitespace character? -/
def startsWs : List Char → Bool
  | [] => false
  | d :: _ => isJsWs d

/-- Embedding of JavaScript `text.split(/\s+/)`: the (possibly empty)
fields between maximal whitespace runs.  As in JS, a leading whitespace
run contributes an initial empty field, a trailing run a final empty
field, and the empty string yields `[[]]`.  A whitespace character only
opens a new field when it is the first character of its run (i.e. the
rest does not continue the run). -/
def jsSplitWs : List Char → List (List Char)
  | [] => [[]]
  | c :: rest =>
    if isJsWs c then
      if startsWs rest then jsSplitWs rest else [] :: jsSplitWs rest
    else
      (c :: (jsSplitWs rest).headD []) :: (jsSplitWs rest).tail

/-- Embedding of JavaScript `text.trim()`: strip leading and trailing
whitespace characters. -/
def jsTrim (s : List Char) : List Char :=
  ((s.dropWhile isJsWs).reverse.dropWhile isJsWs).reverse

/-- Number of maximal non-whitespace runs, counted left to right; the
flag records whether the previous character was part of a run, so a
non-whitespace character is counted exactly when it starts a run.  This
is the specification-side word count. -/
def runsAux : Bool → List Char → Nat
  | _, [] => 0
  | inWord, c :: rest =>
    if isJsWs c then runsAux false rest
    else (if inWord then 0 else 1) + runsAux true rest

/-- Specification-side word count of a character list: the number of its
maximal non-whitespace runs. -/
def maximalRuns (s : List Char) : Nat := runsAux false s

/-- Embedding of `countWords` from
`client/src/components/tools/expand-tool.tsx` (identical copies exist in
the other tool components):
`text.trim() === "" ? 0 : text.trim().split(/\s+/).length`. -/
def countWords (text : List Char) : Nat :=
  if jsTrim text = [] then 0 else (jsSplitWs (jsTrim text)).length

/-- Embedding of the word count computed by the `WordCounter` component
(`client/src/components/ui/word-counter.tsx`): `0` for falsy (empty)
text, otherwise
`text.trim().split(/\s+/).filter(word => word.length > 0).length`. -/
def wordCounterCount (text : List Char) : Nat :=
  if text = [] then 0
  else ((jsSplitWs (jsTrim text)).filter (fun w => 0 < w.length)).length

/-- Modelled from the spec: the server-side word-count function
`countWords` lives in `server/ai.ts`, which is not part of the provided
sources; the spec fixes its behaviour as "split on runs of whitespace,
drop empty tokens, count remainder; empty/whitespace-only text yields
zero", i.e. the number of maximal non-whitespace runs. -/
def countWordsAi (s : List Char) : Nat := maximalRuns s

/-! ## Data model (`shared/schema.ts`) -/

/-- Row of the `users` table. -/
structure User where
  id : Int
  username : List Char
  email : List Char
  password : List Char
  fullName : Option (List Char)
  profileImage : Option (List Char)
  theme : Option (List Char)
  createdAt : Int
deriving DecidableEq

/-- Row of the `contents` table. -/
structure Content where
  id : Int
  userId : Int
  title : List Char
  originalContent : List Char
  transformedContent : List Char
  contentType : List Char
  originalWordCount : Int
  transformedWordCount : Int
  createdAt : Int
  metadata : Option (List Char)
deriving DecidableEq

/-- Fixed content-type enumeration `contentTypes` of `shared/schema.ts`. -/
def contentTypes : List (List Char) :=
  ["expand".data, "summarize".data, "similar".data, "template".data]

/-- TypeScript `Partial<User>`: the argument type of
`DatabaseStorage.updateUser`.  A `none` field is absent from the patch;
for the nullable columns a present field carries an `Option` value. -/
structure UserPatch where
  id : Option Int := none
  username : Option (List Char) := none
  email : Option (List Char) := none
  password : Option (List Char) := none
  fullName : Option (Option (List Char)) := none
  profileImage : Option (Option (List Char)) := none
  theme : Option (Option (List Char)) := none
  createdAt : Option Int := none
deriving DecidableEq

/-- Result of `insertContentSchema` validation: the `InsertContent`
type of `shared/schema.ts` (all required `contents` columns except the
serial id and the defaulted timestamp). -/
structure InsertContent where
  userId : Int
  title : List Char
  originalContent : List Char
  transformedContent : List Char
  contentType : List Char
  originalWordCount : Int
  transformedWordCount : Int
  metadata : Option (List Char)
deriving DecidableEq

/-- JSON body of `POST /api/contents` as far as `insertContentSchema`
inspects it: every picked column as an optional field. -/
structure RawContentBody where
  userId : Option Int := none
  title : Option (List Char) := none
  originalContent : Option (List Char) := none
  transformedContent : Option (List Char) := none
  contentType : Option (List Char) := none
  originalWordCount : Option Int := none
  transformedWordCount : Option Int := none
  metadata : Option (List Char) := none
deriving DecidableEq

/-- Embedding of `insertContentSchema.safeParse`: all picked `notNull`
columns must be present; `metadata` is nullable and may be absent. -/
def insertContentSchema (b : RawContentBody) : Option InsertContent := do
  let u ← b.userId
  let t ← b.title
  let oc ← b.originalContent
  let tc ← b.transformedContent
  let ct ← b.contentType
  let owc ← b.originalWordCount
  let twc ← b.transformedWordCount
  some { userId := u, title := t, originalContent := oc,
         transformedContent := tc, contentType := ct,
         originalWordCount := owc, transformedWordCount := twc,
         metadata := b.metadata }

/-- Supplied generation parameters: the optional numeric fields of the
`aiParameters` JSON object. -/
structure AIParametersInput where
  temperature : Option ℚ := none
  topP : Option ℚ := none
  topK : Option ℚ := none
  maxOutputTokens : Option ℚ := none
deriving DecidableEq

/-- Validated generation parameters. -/
structure AIParameters where
  temperature : ℚ
  topP : ℚ
  topK : ℚ
  maxOutputTokens : ℚ
deriving DecidableEq

/-- Range check of one zod field `z.number().min(lo).max(hi).default(d)`:
a missing value falls back to the default, a present value must lie in
`[lo, hi]`. -/
def checkRange (lo hi dflt : ℚ) : Option ℚ → Option ℚ
  | none => some dflt
  | some v => if lo ≤ v ∧ v ≤ hi then some v else none

/-- Embedding of `aiParametersSchema` of `shared/schema.ts`:
temperature and topP in `[0,1]`, topK in `[1,100]`, maxOutputTokens in
`[50,8192]`, with defaults `0.7`, `0.8`, `40`, `2048`. -/
def aiParametersSchema (p : AIParametersInput) : Option AIParameters := do
  let t ← checkRange 0 1 (7/10) p.temperature
  let tp ← checkRange 0 1 (4/5) p.topP
  let tk ← checkRange 1 100 40 p.topK
  let mo ← checkRange 50 8192 2048 p.maxOutputTokens
  some { temperature := t, topP := tp, topK := tk, maxOutputTokens := mo }

/-- JSON body of `POST /api/transform` as far as
`contentValidationSchema` inspects it. -/
structure TransformBody where
  text : Option (List Char) := none
  contentType : Option (List Char) := none
  tone : Option (List Char) := none
  audience : Option (List Char) := none
  aiParameters : Option AIParametersInput := none
deriving DecidableEq

/-- Validated transform request (the `ContentValidation` type). -/
structure ContentValidation where
  text : List Char
  contentType : List Char
  tone : Option (List Char)
  audience : Option (List Char)
  aiParameters : Option AIParameters
deriving DecidableEq

/-- Embedding of `contentValidationSchema.safeParse`: `text` is a
required string of length at least 1, `contentType` must belong to the
fixed enumeration, `tone` and `audience` are optional strings, and
`aiParameters`, when present, must pass `aiParametersSchema`. -/
def contentValidationSchema (b : TransformBody) : Option ContentValidation :=
  match b.text with
  | none => none
  | some t =>
    if 1 ≤ t.length then
      match b.contentType with
      | none => none
      | some ct =>
        if ct ∈ contentTypes then
          match b.aiParameters with
          | none => some { text := t, contentType := ct, tone := b.tone,
                           audience := b.audience, aiParameters := none }
          | some p =>
            match aiParametersSchema p with
            | none => none
            | some ai => some { text := t, contentType := ct, tone := b.tone,
                                audience := b.audience, aiParameters := some ai }
        else none
    else none

/-! ## Storage layer (`DatabaseStorage`) -/

/-- Descending creation-time order used by the `orderBy(desc(contents.createdAt))`
clauses: `a` comes before `b` when `a` is at least as recent. -/
def newestFirst (a b : Content) : Prop := b.createdAt ≤ a.createdAt

instance : DecidableRel newestFirst := fun a b => Int.decLe b.createdAt a.createdAt

instance : IsTotal Content newestFirst := ⟨fun a b => le_total b.createdAt a.createdAt⟩

instance : IsTrans Content newestFirst := ⟨fun _ _ _ hab hbc => le_trans hbc hab⟩

/-- Model of `ORDER BY created_at DESC` on a result set. -/
def orderByCreatedAtDesc (l : List Content) : List Content :=
  l.insertionSort newestFirst

/-- Embedding of `DatabaseStorage.getContent`: select the row with the
given id. -/
def getContent (st : List Content) (id : Int) : Option Content :=
  st.find? (fun c => c.id == id)

/-- Embedding of `DatabaseStorage.getUserContents`: the caller's rows,
newest first. -/
def getUserContents (st : List Content) (userId : Int) : List Content :=
  orderByCreatedAtDesc (st.filter (fun c => c.userId == userId))

/-- Embedding of `DatabaseStorage.getUserContentsByType`: the caller's
rows of one content type, newest first. -/
def getUserContentsByType (st : List Content) (userId : Int)
    (contentType : List Char) : List Content :=
  orderByCreatedAtDesc
    (st.filter (fun c => c.userId == userId && c.contentType == contentType))

/-- Embedding of `DatabaseStorage.getRecentUserContents`: the caller's
rows, newest first, truncated to `limit`. -/
def getRecentUserContents (st : List Content) (userId : Int) (limit : Nat) :
    List Content :=
  (getUserContents st userId).take limit

/-- Embedding of `DatabaseStorage.createContent`: insert a row; the
database supplies the serial id and the `created_at` timestamp. -/
def createContent (st : List Content) (freshId now : Int)
    (ic : InsertContent) : Content × List Content :=
  let c : Content :=
    { id := freshId, userId := ic.userId, title := ic.title,
      originalContent := ic.originalContent,
      transformedContent := ic.transformedContent,
      contentType := ic.contentType,
      originalWordCount := ic.originalWordCount,
      transformedWordCount := ic.transformedWordCount,
      createdAt := now, metadata := ic.metadata }
  (c, st ++ [c])

/-- Drizzle `.set`: apply every present field of a patch to a row. -/
def applyUserPatch (u : User) (p : UserPatch) : User :=
  { id := p.id.getD u.id, username := p.username.getD u.username,
    email := p.email.getD u.email, password := p.password.getD u.password,
    fullName := p.fullName.getD u.fullName,
    profileImage := p.profileImage.getD u.profileImage,
    theme := p.theme.getD u.theme, createdAt := p.createdAt.getD u.createdAt }

/-- Embedding of `DatabaseStorage.updateUser`: destructure the password
out of the incoming data (`const { password, ...safeUserData } = userData`)
and apply the remaining fields to the row with the given id. -/
def updateUser (st : List User) (id : Int) (userData : UserPatch) : List User :=
  let safeUserData : UserPatch := { userData with password := none }
  st.map (fun u => if u.id == id then applyUserPatch u safeUserData else u)

/-! ## Route handlers (`server/routes.ts`) -/

/-- Response of `POST /api/transform`; the second component of the
handler's result records whether the external provider was called. -/
inductive TransformResponse
  | ok (originalContent transformedContent contentType : List Char)
       (originalWordCount transformedWordCount : Nat)
       (tone audience : Option (List Char))
  | validationError
deriving DecidableEq

/-- Original word count carried by an `ok` transform response. -/
def TransformResponse.origWordCount : TransformResponse → Option Nat
  | .ok _ _ _ o _ _ _ => some o
  | .validationError => none

/-- Embedding of the `POST /api/transform` handler: validate, call the
provider (`transformContent`, abstracted as `provider` since it only
wraps the hosted API), and answer with both word counts.  The boolean
output records whether the provider was called. -/
def postTransform (provider : List Char → List Char) (b : TransformBody) :
    TransformResponse × Bool :=
  match contentValidationSchema b with
  | none => (.validationError, false)
  | some content =>
    let transformedContent := provider content.text
    (.ok content.text transformedContent content.contentType
      (countWordsAi content.text) (countWordsAi transformedContent)
      content.tone content.audience, true)

/-- Response of `POST /api/contents`. -/
inductive SaveResponse
  | created (c : Content)
  | invalid
deriving DecidableEq

/-- Embedding of the `POST /api/contents` handler: build `contentData`
by spreading the body and overwriting `userId` with the session user's
id, validate with `insertContentSchema`, and persist. -/
def postContents (st : List Content) (callerId freshId now : Int)
    (body : RawContentBody) : SaveResponse × List Content :=
  match insertContentSchema { body with userId := some callerId } with
  | none => (.invalid, st)
  | some ic =>
    (SaveResponse.created (createContent st freshId now ic).1,
     (createContent st freshId now ic).2)

/-- Response of `GET /api/contents`. -/
inductive ListResponse
  | ok (cs : List Content)
  | invalidType
deriving DecidableEq

/-- Embedding of the `GET /api/contents` handler: an absent `type`
query parameter lists everything; a present one is checked against the
hard-coded list `['expand', 'summarize', 'similar']` before filtering. -/
def getContentsHandler (st : List Content) (callerId : Int)
    (typeParam : Option (List Char)) : ListResponse :=
  match typeParam with
  | none => .ok (getUserContents st callerId)
  | some contentType =>
    if contentType ∈ ["expand".data, "summarize".data, "similar".data] then
      .ok (getUserContentsByType st callerId contentType)
    else
      .invalidType

/-- Embedding of the `GET /api/contents/recent` handler: the `limit`
query parameter defaults to 10. -/
def recentHandler (st : List Content) (callerId : Int)
    (limitParam : Option Nat) : List Content :=
  getRecentUserContents st callerId (limitParam.getD 10)

/-- Response of `GET /api/contents/:id`. -/
inductive ContentResponse
  | ok (c : Content)
  | badRequest
  | notFound
  | forbidden
deriving DecidableEq

/-- Lookup and ownership check of the `GET /api/contents/:id` handler
for a well-formed id: a missing row is a 404, a row owned by another
user a 403. -/
def getContentByIdAuth (st : List Content) (callerId contentId : Int) :
    ContentResponse :=
  match getContent st contentId with
  | none => .notFound
  | some content =>
    if content.userId ≠ callerId then .forbidden else .ok content

/-- Embedding of the `GET /api/contents/:id` handler: a non-numeric id
(`parseInt` NaN, modelled as `none`) is a 400, otherwise the lookup and
ownership check run. -/
def getContentById (st : List Content) (callerId : Int)
    (idParam : Option Int) : ContentResponse :=
  match idParam with
  | none => .badRequest
  | some contentId => getContentByIdAuth st callerId contentId

/-- Embedding of the `PATCH /api/profile` handler: pass the body to
`updateUser` for the session user. -/
def patchProfile (st : List User) (callerId : Int) (body : UserPatch) :
    List User :=
  updateUser st callerId body

/-! ## Concrete sample data used by witnesses and counterexamples -/

/-- Transform request with fixed valid text and content type carrying
the given generation parameters. -/
def c6request (p : AIParametersInput) : TransformBody :=
  { text := some "a".data, contentType := some "expand".data,
    aiParameters := some p }

/-- Well-formed save body (no `userId` supplied by the client). -/
def c1body : RawContentBody :=
  { title := some "t".data, originalContent := some "hello".data,
    transformedContent := some "hello world".data,
    contentType := some "expand".data,
    originalWordCount := some 1, transformedWordCount := some 2 }

/-- Record produced by saving `c1body` as user 7 with id 3 at time 0. -/
def c1saved : Content :=
  { id := 3, userId := 7, title := "t".data,
    originalContent := "hello".data,
    transformedContent := "hello world".data,
    contentType := "expand".data, originalWordCount := 1,
    transformedWordCount := 2, createdAt := 0, metadata := none }

/-- Stored content record with id 5 owned by user 1. -/
def c2rec : Content :=
  { id := 5, userId := 1, title := "t".data,
    originalContent := "o".data, transformedContent := "x".data,
    contentType := "expand".data, originalWordCount := 1,
    transformedWordCount := 1, createdAt := 0, metadata := none }

/-- Stored content record of type `template` owned by user 1. -/
def c5rec : Content :=
  { id := 1, userId := 1, title := "t".data,
    originalContent := "o".data, transformedContent := "x".data,
    contentType := "template".data, originalWordCount := 1,
    transformedWordCount := 1, createdAt := 0, metadata := none }

/-- Save body whose word counts are negative and inconsistent with its
texts (the text "a b c" has 3 words, "x" has 1). -/
def c7body : RawContentBody :=
  { title := some "t".data, originalContent := some "a b c".data,
    transformedContent := some "x".data,
    contentType := some "expand".data,
    originalWordCount := some (-5), transformedWordCount := some 999 }

/-- Record persisted for `c7body` by user 1 with id 1 at time 0. -/
def c7saved : Content :=
  { id := 1, userId := 1, title := "t".data,
    originalContent := "a b c".data, transformedContent := "x".data,
    contentType := "expand".data, originalWordCount := -5,
    transformedWordCount := 999, createdAt := 0, metadata := none }

/-- Save body with counts equal to the word counts of its texts. -/
def c7goodBody : RawContentBody :=
  { title := some "w".data, originalContent := some "one two".data,
    transformedContent := some "three".data,
    contentType := some "summarize".data,
    originalWordCount := some 2, transformedWordCount := some 1 }

/-- Stored user row. -/
def c8user : User :=
  { id := 1, username := "u".data, email := "e".data,
    password := "pw".data, fullName := none, profileImage := none,
    theme := some "light".data, createdAt := 0 }

/-- Profile-update payload touching fields outside
name/email/username/theme. -/
def c8patch : UserPatch :=
  { profileImage := some (some "img".data), createdAt := some 99 }

/-- Record persisted for `c7goodBody` by user 3 with id 2 at time 1. -/
def c7savedGood : Content :=
  { id := 2, userId := 3, title := "w".data,
    originalContent := "one two".data, transformedContent := "three".data,
    contentType := "summarize".data, originalWordCount := 2,
    transformedWordCount := 1, createdAt := 1, metadata := none }

/-- Stored content record with id 1 owned by user 4. -/
def c9rec : Content :=
  { id := 1, userId := 4, title := "t".data,
    originalContent := "o".data, transformedContent := "x".data,
    contentType := "similar".data, originalWordCount := 1,
    transformedWordCount := 1, createdAt := 5, metadata := none }

end Aca

namespace Aca

/-! ## Word-count lemmas -/

theorem jsSplitWs_ne_nil (s : List Char) : jsSplitWs s ≠ [] := by
  induction s with
  | nil => simp [jsSplitWs]
  | cons c rest ih =>
    rw [jsSplitWs]
    split
    · split <;> simp [ih]
    · simp

theorem runsAux_true_ws (d : Char) (r : List Char) (hd : isJsWs d = true) :
    runsAux true (d :: r) = runsAux false (d :: r) := by
  rw [runsAux, if_pos hd, runsAux, if_pos hd]

/-- Joint induction invariant: counting the non-empty fields of the JS
split yields the number of maximal non-whitespace runs, both from
outside a run (`false`) and, for the field list without its first
field, from inside a run (`true`). -/
theorem filter_jsSplitWs (s : List Char) :
    ((jsSplitWs s).filter (fun w => 0 < w.length)).length = runsAux false s ∧
    (((jsSplitWs s).tail).filter (fun w => 0 < w.length)).length = runsAux true s := by
  induction s with
  | nil => simp [jsSplitWs, runsAux]
  | cons c rest ih =>
    by_cases hc : isJsWs c
    · rw [jsSplitWs, if_pos hc, runsAux, runsAux, if_pos hc, if_pos hc]
      match rest, ih with
      | [], _ => simp [startsWs, jsSplitWs, runsAux]
      | d :: rest2, ih =>
        by_cases hd : isJsWs d
        · rw [if_pos (by simpa [startsWs] using hd)]
          exact ⟨ih.1, ih.2.trans (runsAux_true_ws d rest2 hd)⟩
        · rw [if_neg (by simpa [startsWs] using hd)]
          refine ⟨by simpa using ih.1, by simpa using ih.1⟩
    · rw [jsSplitWs, if_neg hc, runsAux, runsAux, if_neg hc, if_neg hc]
      rcases hsp : jsSplitWs rest with _ | ⟨t, ts⟩
      · exact absurd hsp (jsSplitWs_ne_nil rest)
      · rw [hsp] at ih
        simp only [List.tail_cons] at ih
        have h2 := ih.2
        simp only [List.headD_cons, List.tail_cons]
        constructor
        · simp [List.filter_cons]
          omega
        · simpa using h2

theorem runsAux_nil_of_ws (b : Bool) (t : List Char)
    (h : ∀ c ∈ t, isJsWs c = true) : runsAux b t = 0 := by
  induction t generalizing b with
  | nil => rfl
  | cons d t2 ih =>
    rw [runsAux, if_pos (h d (by simp))]
    exact ih false (fun c hc => h c (by simp [hc]))

theorem runsAux_append_ws (t : List Char) (h : ∀ c ∈ t, isJsWs c = true) :
    ∀ (b : Bool) (l : List Char), runsAux b (l ++ t) = runsAux b l := by
  intro b l
  induction l generalizing b with
  | nil => simpa using runsAux_nil_of_ws b t h
  | cons c l2 ih =>
    by_cases hc : isJsWs c
    · rw [List.cons_append, runsAux, if_pos hc, runsAux, if_pos hc]
      exact ih false
    · rw [List.cons_append, runsAux, if_neg hc, runsAux, if_neg hc, ih true]

theorem maximalRuns_dropWhile (s : List Char) :
    maximalRuns (s.dropWhile isJsWs) = maximalRuns s := by
  induction s with
  | nil => rfl
  | cons c rest ih =>
    by_cases hc : isJsWs c
    · rw [List.dropWhile_cons_of_pos hc, ih]
      show maximalRuns rest = maximalRuns (c :: rest)
      unfold maximalRuns
      rw [runsAux, if_pos hc]
    · rw [List.dropWhile_cons_of_neg hc]

theorem maximalRuns_rdropWhile (l : List Char) :
    maximalRuns (l.rdropWhile isJsWs) = maximalRuns l := by
  have hdecomp : l.rdropWhile isJsWs ++ l.rtakeWhile isJsWs = l := by
    rw [List.rdropWhile, List.rtakeWhile, ← List.reverse_append,
      List.takeWhile_append_dropWhile, List.reverse_reverse]
  have hws : ∀ c ∈ l.rtakeWhile isJsWs, isJsWs c = true :=
    fun c hc => List.mem_rtakeWhile_imp hc
  calc maximalRuns (l.rdropWhile isJsWs)
      = runsAux false (l.rdropWhile isJsWs ++ l.rtakeWhile isJsWs) :=
        (runsAux_append_ws _ hws false _).symm
    _ = maximalRuns l := by rw [hdecomp]; rfl

theorem jsTrim_eq_rdropWhile (s : List Char) :
    jsTrim s = (s.dropWhile isJsWs).rdropWhile isJsWs := rfl

theorem maximalRuns_jsTrim (s : List Char) :
    maximalRuns (jsTrim s) = maximalRuns s := by
  rw [jsTrim_eq_rdropWhile, maximalRuns_rdropWhile, maximalRuns_dropWhile]

theorem tail_fields_ne_nil (s : List Char)
    (hl : ∀ x, s.getLast? = some x → isJsWs x = false) :
    ∀ w ∈ (jsSplitWs s).tail, w ≠ [] := by
  induction s with
  | nil => simp [jsSplitWs]
  | cons c rest ih =>
    have hl2 : ∀ x, rest.getLast? = some x → isJsWs x = false := by
      match rest with
      | [] => simp
      | d :: rest2 =>
        intro x hx
        exact hl x (by rw [List.getLast?_cons_cons]; exact hx)
    by_cases hc : isJsWs c
    · rw [jsSplitWs, if_pos hc]
      match rest with
      | [] =>
        exact absurd (hl c rfl) (by simp [hc])
      | d :: rest2 =>
        by_cases hd : isJsWs d
        · rw [if_pos (by simpa [startsWs] using hd)]
          exact ih hl2
        · rw [if_neg (by simpa [startsWs] using hd), List.tail_cons]
          intro w hw
          rw [jsSplitWs, if_neg hd] at hw
          rcases List.mem_cons.mp hw with h | h
          · simp [h]
          · exact ih hl2 w (by rw [jsSplitWs, if_neg hd]; exact h)
    · rw [jsSplitWs, if_neg hc, List.tail_cons]
      exact ih hl2

theorem fields_ne_nil (s : List Char) (hne : s ≠ [])
    (hh : ∀ x, s.head? = some x → isJsWs x = false)
    (hl : ∀ x, s.getLast? = some x → isJsWs x = false) :
    ∀ w ∈ jsSplitWs s, w ≠ [] := by
  match s with
  | [] => exact absurd rfl hne
  | c :: rest =>
    intro w hw
    rw [jsSplitWs, if_neg (by simp [hh c rfl])] at hw
    rcases List.mem_cons.mp hw with h | h
    · simp [h]
    · exact tail_fields_ne_nil (c :: rest) hl w
        (by rw [jsSplitWs, if_neg (by simp [hh c rfl]), List.tail_cons]; exact h)

theorem head_dropWhile_not (p : Char → Bool) (l : List Char) :
    ∀ x, (l.dropWhile p).head? = some x → p x = false := by
  induction l with
  | nil => simp
  | cons c rest ih =>
    by_cases hc : p c
    · rw [List.dropWhile_cons_of_pos hc]
      exact ih
    · rw [List.dropWhile_cons_of_neg hc]
      intro x hx
      rw [List.head?_cons, Option.some_inj] at hx
      rw [← hx]
      simpa using hc

theorem jsTrim_head_not_ws (s : List Char) :
    ∀ x, (jsTrim s).head? = some x → isJsWs x = false := by
  intro x hx
  have hpre := List.rdropWhile_prefix isJsWs (s.dropWhile isJsWs)
  rw [← jsTrim_eq_rdropWhile] at hpre
  obtain ⟨r, hr⟩ := hpre
  have hx2 : (s.dropWhile isJsWs).head? = some x := by
    rw [← hr, List.head?_append, hx]
    rfl
  exact head_dropWhile_not isJsWs s x hx2

theorem jsTrim_last_not_ws (s : List Char) :
    ∀ x, (jsTrim s).getLast? = some x → isJsWs x = false := by
  intro x hx
  have hne : List.rdropWhile isJsWs (List.dropWhile isJsWs s) ≠ [] := by
    intro h
    rw [jsTrim_eq_rdropWhile, h] at hx
    exact Option.noConfusion hx
  have h1 := List.rdropWhile_last_not isJsWs (s.dropWhile isJsWs) hne
  have hx2 : (List.rdropWhile isJsWs (List.dropWhile isJsWs s)).getLast? = some x := by
    rw [← jsTrim_eq_rdropWhile]
    exact hx
  rw [List.getLast?_eq_getLast _ hne, Option.some_inj] at hx2
  rw [← hx2]
  simpa using h1

theorem countWords_eq_maximalRuns (s : List Char) :
    countWords s = maximalRuns s := by
  unfold countWords
  by_cases h : jsTrim s = []
  · rw [if_pos h, ← maximalRuns_jsTrim, h]
    rfl
  · rw [if_neg h]
    have hfilter : (jsSplitWs (jsTrim s)).filter (fun w => 0 < w.length)
        = jsSplitWs (jsTrim s) :=
      List.filter_eq_self.mpr (fun w hw => by
        simpa using List.length_pos.mpr
          (fields_ne_nil (jsTrim s) h (jsTrim_head_not_ws s) (jsTrim_last_not_ws s) w hw))
    rw [← hfilter, (filter_jsSplitWs (jsTrim s)).1,
      show runsAux false (jsTrim s) = maximalRuns (jsTrim s) from rfl,
      maximalRuns_jsTrim]

theorem wordCounterCount_eq_maximalRuns (s : List Char) :
    wordCounterCount s = maximalRuns s := by
  unfold wordCounterCount
  by_cases h : s = []
  · rw [if_pos h, ← maximalRuns_jsTrim, h]
    rfl
  · rw [if_neg h, (filter_jsSplitWs (jsTrim s)).1,
      show runsAux false (jsTrim s) = maximalRuns (jsTrim s) from rfl,
      maximalRuns_jsTrim]

end Aca

namespace Aca

/-! ## Parser inversion lemmas -/

theorem insertContentSchema_inv (b : RawContentBody) (ic : InsertContent)
    (h : insertContentSchema b = some ic) :
    b.userId = some ic.userId
    ∧ b.originalWordCount = some ic.originalWordCount
    ∧ b.transformedWordCount = some ic.transformedWordCount
    ∧ b.originalContent = some ic.originalContent
    ∧ b.transformedContent = some ic.transformedContent := by
  rcases ic with ⟨iu, it, ioc, itc, ict, iowc, itwc, imd⟩
  rcases b with ⟨u, t, oc, tc, ct, owc, twc, md⟩
  cases u <;> cases t <;> cases oc <;> cases tc <;> cases ct <;>
    cases owc <;> cases twc <;> simp_all [insertContentSchema]

/-! ## Claim C4: word counting -/

/-- C4: for every text, the client word-count helper (`countWords` in the
tool components) and the `WordCounter` component both return the number
of maximal non-whitespace runs; empty or whitespace-only text counts 0;
and "The cat sat on the mat." counts as 6 words. -/
theorem c4_word_count :
    (∀ s : List Char,
        countWords s = maximalRuns s ∧ wordCounterCount s = maximalRuns s)
    ∧ countWords [] = 0
    ∧ (∀ s : List Char, (∀ c ∈ s, isJsWs c = true) → countWords s = 0)
    ∧ countWords "The cat sat on the mat.".data = 6 := by
  refine ⟨fun s => ⟨countWords_eq_maximalRuns s, wordCounterCount_eq_maximalRuns s⟩,
    rfl, ?_, ?_⟩
  · intro s h
    rw [countWords_eq_maximalRuns s]
    exact runsAux_nil_of_ws false s h
  · decide

/-- Witness for C4 at the concrete whitespace-only input `" \t"`. -/
theorem c4_word_count_witness :
    (∀ c ∈ [' ', '\t'], isJsWs c = true) ∧ countWords [' ', '\t'] = 0 :=
  ⟨by decide, c4_word_count.2.2.1 [' ', '\t'] (by decide)⟩

/-! ## Claim C6: generation-parameter boundaries -/

/-- C6: transform-request validation accepts the generation parameters
exactly at their bounds (temperature and topP 0 and 1, topK 1 and 100,
maxOutputTokens 50 and 8192) and rejects a value one unit beyond either
bound of any parameter. -/
theorem c6_parameter_boundaries :
    (contentValidationSchema (c6request
      { temperature := some 0, topP := some 0, topK := some 1,
        maxOutputTokens := some 50 })).isSome = true
    ∧ (contentValidationSchema (c6request
      { temperature := some 1, topP := some 1, topK := some 100,
        maxOutputTokens := some 8192 })).isSome = true
    ∧ (contentValidationSchema (c6request { temperature := some (-1) })).isSome = false
    ∧ (contentValidationSchema (c6request { temperature := some 2 })).isSome = false
    ∧ (contentValidationSchema (c6request { topP := some (-1) })).isSome = false
    ∧ (contentValidationSchema (c6request { topP := some 2 })).isSome = false
    ∧ (contentValidationSchema (c6request { topK := some 0 })).isSome = false
    ∧ (contentValidationSchema (c6request { topK := some 101 })).isSome = false
    ∧ (contentValidationSchema (c6request { maxOutputTokens := some 49 })).isSome = false
    ∧ (contentValidationSchema (c6request { maxOutputTokens := some 8193 })).isSome = false := by
  decide

end Aca

namespace Aca

/-! ## Claim C1: the save endpoint forces the caller's userId -/

/-- C1: whatever the request body contains, the record validated and
persisted by `POST /api/contents` carries the authenticated caller's
id, and a client-supplied `userId` has no influence on the handler's
result. -/
theorem c1_save_forces_caller_id :
    ∀ (st : List Content) (callerId freshId now : Int) (body : RawContentBody),
      (∀ c st2,
        postContents st callerId freshId now body = (SaveResponse.created c, st2) →
        c.userId = callerId ∧ st2 = st ++ [c])
      ∧ (∀ x : Int,
          postContents st callerId freshId now { body with userId := some x }
            = postContents st callerId freshId now body) := by
  intro st callerId freshId now body
  refine ⟨?_, ?_⟩
  · intro c st2 h
    unfold postContents at h
    cases hp : insertContentSchema { body with userId := some callerId } with
    | none =>
      rw [hp] at h
      exact absurd h (by simp)
    | some ic =>
      rw [hp] at h
      have huid : some callerId = some ic.userId := (insertContentSchema_inv _ ic hp).1
      simp only [createContent, Prod.mk.injEq, SaveResponse.created.injEq] at h
      rcases h with ⟨hc, hst⟩
      refine ⟨?_, ?_⟩
      · rw [← hc]
        exact (Option.some_inj.mp huid).symm
      · rw [← hc, ← hst]
  · intro x
    rfl

/-- Witness for C1: saving `c1body` (which supplies no `userId`) as
user 7 stores the record with `userId = 7`, and supplying `userId = 42`
in the body changes nothing. -/
theorem c1_save_forces_caller_id_witness :
    (c1saved.userId = 7 ∧ [c1saved] = [] ++ [c1saved])
    ∧ postContents [] 7 3 0 { c1body with userId := some 42 }
        = postContents [] 7 3 0 c1body :=
  ⟨(c1_save_forces_caller_id [] 7 3 0 c1body).1 c1saved [c1saved] (by decide),
   (c1_save_forces_caller_id [] 7 3 0 c1body).2 42⟩

/-! ## Claim C2: ownership check on fetch by id -/

/-- C2: fetching a stored record owned by another user yields the
forbidden response and never the record's contents; fetching an id with
no stored record yields the not-found response. -/
theorem c2_fetch_ownership :
    ∀ (st : List Content) (callerId contentId : Int),
      (∀ c, getContent st contentId = some c → c.userId ≠ callerId →
        getContentById st callerId (some contentId) = ContentResponse.forbidden
        ∧ ∀ c2, getContentById st callerId (some contentId) ≠ ContentResponse.ok c2)
      ∧ (getContent st contentId = none →
          getContentById st callerId (some contentId) = ContentResponse.notFound) := by
  intro st callerId contentId
  constructor
  · intro c hc hne
    have hres : getContentById st callerId (some contentId) = ContentResponse.forbidden := by
      simp only [getContentById]
      unfold getContentByIdAuth
      rw [hc]
      simp [hne]
    exact ⟨hres, fun c2 => by rw [hres]; exact fun hcontra => ContentResponse.noConfusion hcontra⟩
  · intro h
    simp only [getContentById]
    unfold getContentByIdAuth
    rw [h]

/-- Witness for C2: user 2 fetching record 5 (owned by user 1) is
forbidden; fetching the absent id 9 is not found. -/
theorem c2_fetch_ownership_witness :
    getContentById [c2rec] 2 (some 5) = ContentResponse.forbidden
    ∧ getContentById [] 2 (some 9) = ContentResponse.notFound :=
  ⟨((c2_fetch_ownership [c2rec] 2 5).1 c2rec (by decide) (by decide)).1,
   (c2_fetch_ownership [] 2 9).2 rfl⟩

/-! ## Claim C3: invalid transform requests never reach the provider -/

/-- C3: a transform request whose text is the empty string, or whose
content type lies outside the fixed enumeration, fails validation and
is answered with the validation error without calling the provider. -/
theorem c3_invalid_transform_no_provider_call :
    ∀ (provider : List Char → List Char) (b : TransformBody),
      (b.text = some [] ∨ ∃ ct, b.contentType = some ct ∧ ct ∉ contentTypes) →
      postTransform provider b = (TransformResponse.validationError, false) := by
  intro provider b h
  have hv : contentValidationSchema b = none := by
    rcases h with h | ⟨ct, hct, hnot⟩
    · unfold contentValidationSchema
      rw [h]
      simp
    · unfold contentValidationSchema
      split
      · rfl
      · split
        · split
          · rfl
          · next ct2 hct2 =>
              have hcteq : ct2 = ct := by
                rw [hct2] at hct
                exact Option.some_inj.mp hct
              subst hcteq
              rw [if_neg hnot]
        · rfl
  unfold postTransform
  rw [hv]

/-- Witness for C3: the empty text and the content type "translate" are
both rejected without a provider call. -/
theorem c3_invalid_transform_witness :
    postTransform (fun s => s)
        { text := some [], contentType := some "expand".data }
      = (TransformResponse.validationError, false)
    ∧ postTransform (fun s => s)
        { text := some "hi".data, contentType := some "translate".data }
      = (TransformResponse.validationError, false) :=
  ⟨c3_invalid_transform_no_provider_call (fun s => s) _ (Or.inl rfl),
   c3_invalid_transform_no_provider_call (fun s => s) _
     (Or.inr ⟨"translate".data, rfl, by decide⟩)⟩

end Aca

namespace Aca

/-! ## Claim C5: content-type filter on listing -/

/-- C5 fails on the code: `template` belongs to the fixed enumeration
(and the sample state holds a template record of the caller), yet the
`GET /api/contents` handler rejects `type=template` as invalid, because
its hard-coded list omits `template`; the other enumeration members are
accepted. -/
theorem c5_template_filter_rejected :
    "template".data ∈ contentTypes
    ∧ getContentsHandler [c5rec] 1 (some "template".data) = ListResponse.invalidType
    ∧ getContentsHandler [c5rec] 1 (some "expand".data) = ListResponse.ok []
    ∧ getContentsHandler [c5rec] 1 (some "summarize".data) = ListResponse.ok []
    ∧ getContentsHandler [c5rec] 1 (some "similar".data) = ListResponse.ok []
    ∧ getContentsHandler [c5rec] 1 none = ListResponse.ok [c5rec] := by
  decide

/-! ## Claim C7: word-count consistency of persisted records -/

/-- C7 fails on the code: the save endpoint accepts and persists
`c7body`, whose original word count is the negative `-5` while the
stored text "a b c" has 3 words, and whose transformed count `999`
differs from the 1 word of the stored text "x". -/
theorem c7_counterexample :
    (postContents [] 1 1 0 c7body).1 = SaveResponse.created c7saved
    ∧ c7saved.originalWordCount = -5
    ∧ c7saved.originalWordCount < 0
    ∧ (maximalRuns c7saved.originalContent : Int) = 3
    ∧ c7saved.transformedWordCount = 999
    ∧ (maximalRuns c7saved.transformedContent : Int) = 1 := by
  decide

/-- C7 amended: the save endpoint performs no sign or consistency check
on the word counts; it persists the client-supplied counts and texts
verbatim, so a record's counts match its texts only if the client sent
matching values (as the bundled client does, computing them with
`countWords`). -/
theorem c7_counts_persisted_verbatim :
    ∀ (st : List Content) (callerId freshId now : Int) (body : RawContentBody)
      (c : Content) (st2 : List Content),
      postContents st callerId freshId now body = (SaveResponse.created c, st2) →
      body.originalWordCount = some c.originalWordCount
      ∧ body.transformedWordCount = some c.transformedWordCount
      ∧ body.originalContent = some c.originalContent
      ∧ body.transformedContent = some c.transformedContent := by
  intro st callerId freshId now body c st2 h
  unfold postContents at h
  cases hp : insertContentSchema { body with userId := some callerId } with
  | none =>
    rw [hp] at h
    exact absurd h (by simp)
  | some ic =>
    rw [hp] at h
    have hinv := insertContentSchema_inv _ ic hp
    simp only [createContent, Prod.mk.injEq, SaveResponse.created.injEq] at h
    rcases h with ⟨hc, hst⟩
    refine ⟨?_, ?_, ?_, ?_⟩ <;> rw [← hc]
    · exact hinv.2.1
    · exact hinv.2.2.1
    · exact hinv.2.2.2.1
    · exact hinv.2.2.2.2

/-- Witness for the amended C7 at a body whose counts do match its
texts. -/
theorem c7_counts_persisted_verbatim_witness :
    c7goodBody.originalWordCount = some c7savedGood.originalWordCount
    ∧ c7goodBody.transformedWordCount = some c7savedGood.transformedWordCount
    ∧ c7goodBody.originalContent = some c7savedGood.originalContent
    ∧ c7goodBody.transformedContent = some c7savedGood.transformedContent :=
  c7_counts_persisted_verbatim [] 3 2 1 c7goodBody c7savedGood [c7savedGood]
    (by decide)

/-! ## Claim C8: profile updates and credential fields -/

/-- C8 fails on the code as stated: the profile-update payload
`c8patch` changes `profileImage` and `createdAt`, which lie outside the
claimed set of mutable fields (name, email, username, theme); only the
password is protected. -/
theorem c8_counterexample :
    ((updateUser [c8user] 1 c8patch).map (fun u => u.profileImage)
        ≠ [c8user].map (fun u => u.profileImage))
    ∧ ((updateUser [c8user] 1 c8patch).map (fun u => u.createdAt)
        ≠ [c8user].map (fun u => u.createdAt))
    ∧ (updateUser [c8user] 1 c8patch).map (fun u => u.password)
        = [c8user].map (fun u => u.password) := by
  decide

/-- C8 amended: a `PATCH /api/profile` update never changes any stored
password (the handler strips the `password` field before applying the
patch); all other user columns present in the payload are applied. -/
theorem c8_password_never_changed :
    ∀ (st : List User) (callerId : Int) (body : UserPatch),
      (patchProfile st callerId body).map (fun u => u.password)
        = st.map (fun u => u.password) := by
  intro st callerId body
  simp only [patchProfile, updateUser, List.map_map]
  apply List.map_congr_left
  intro u hu
  by_cases h : u.id == callerId
  · simp [h, Function.comp, applyUserPatch]
  · simp [h, Function.comp]

/-! ## Claim C9: recent listing, newest first, default limit 10 -/

/-- C9: with no `limit` parameter, `GET /api/contents/recent` returns at
most 10 records, sorted newest first, all owned by the caller. -/
theorem c9_recent_newest_first_default_ten :
    ∀ (st : List Content) (callerId : Int),
      (recentHandler st callerId none).length ≤ 10
      ∧ List.Sorted newestFirst (recentHandler st callerId none)
      ∧ ∀ c ∈ recentHandler st callerId none, c.userId = callerId := by
  intro st callerId
  refine ⟨?_, ?_, ?_⟩
  · exact List.length_take_le 10 _
  · exact List.Pairwise.sublist (List.take_sublist _ _)
      (List.sorted_insertionSort newestFirst _)
  · intro c hc
    have hmem : c ∈ orderByCreatedAtDesc
        (st.filter (fun x => x.userId == callerId)) :=
      List.mem_of_mem_take hc
    have hmem2 : c ∈ st.filter (fun x => x.userId == callerId) :=
      (List.perm_insertionSort newestFirst _).mem_iff.mp hmem
    simpa using (List.mem_filter.mp hmem2).2

/-- Witness for C9: in a one-record state owned by user 4, the record is
returned and the ownership conclusion applies to it. -/
theorem c9_recent_newest_first_default_ten_witness : c9rec.userId = 4 :=
  (c9_recent_newest_first_default_ten [c9rec] 4).2.2 c9rec (by decide)

/-! ## Claim C10: whitespace-only text passes validation -/

/-- C10: validation accepts every text of length at least 1 together
with an enumerated content type — including whitespace-only text — the
provider is then called, and for the single-space text the reported
original word count is 0. -/
theorem c10_whitespace_text_accepted :
    ∀ (provider : List Char → List Char) (t ct : List Char),
      1 ≤ t.length → ct ∈ contentTypes →
      (postTransform provider { text := some t, contentType := some ct }).2 = true
      ∧ (postTransform provider
          { text := some [' '], contentType := some ct }).1.origWordCount
            = some 0 := by
  intro provider t ct hlen hct
  have hv : ∀ u : List Char, 1 ≤ u.length →
      contentValidationSchema { text := some u, contentType := some ct }
        = some { text := u, contentType := ct, tone := none, audience := none,
                 aiParameters := none } := by
    intro u hu
    simp [contentValidationSchema, hu, hct]
  constructor
  · unfold postTransform
    rw [hv t hlen]
  · unfold postTransform
    rw [hv [' '] (by decide)]
    simp only [TransformResponse.origWordCount]
    decide

/-- Witness for C10 at the single-space text with type `expand`. -/
theorem c10_whitespace_text_accepted_witness :
    (postTransform (fun s => s)
        { text := some [' '], contentType := some "expand".data }).2 = true
    ∧ (postTransform (fun s => s)
        { text := some [' '], contentType := some "expand".data }).1.origWordCount
          = some 0 :=
  ⟨(c10_whitespace_text_accepted (fun s => s) [' '] "expand".data
      (by decide) (by decide)).1,
   (c10_whitespace_text_accepted (fun s => s) [' '] "expand".data
      (by decide) (by decide)).2⟩

end Aca
